import Mathlib

/-!
# Verification of the pystac datacube extension accessor layer

A shallow embedding of `pystac/extensions/datacube.py`: the dimension
variant classifier (`Dimension.from_dict`), the typed property accessors of
the four dimension variants and of `Variable`, and the `DatacubeExtension`
facade factory (`DatacubeExtension.ext`), together with theorems settling
the specification's claims about them.

Python dictionaries holding JSON-compatible values are modelled as ordered
association lists over a `Value` type in which Python `None` (JSON `null`)
is an explicit constructor, so that "key absent", "key present with null"
and "key present with a concrete value" are all representable, exactly as
in the source. `d.get(k)` (whose default is `None`) is `dictGet`,
`d[k] = v` is `dictSet`, `d.pop(k, None)` is `dictPop`, `k in d` is
`dictContains`. Fallible accessors return `Except PyError`.
-/

namespace Datacube

/-- A Python/JSON-compatible value as stored in a property mapping.
`Value.none` is Python `None` (JSON `null`). -/
inductive Value where
  | none : Value
  | str : String → Value
  | num : Int → Value
  | bool : Bool → Value
  | list : List Value → Value
  | dict : List (String × Value) → Value

/-- Python `v is None`. -/
def Value.isNone : Value → Bool
  | Value.none => true
  | _ => false

/-- Python `v == s` for a string literal `s`: true exactly when `v` is the
string `s` (comparing `None`, numbers, lists, … to a string is `False`). -/
def Value.eqStr : Value → String → Bool
  | Value.str t, s => t == s
  | _, _ => false

/-- A Python dict from string keys to JSON-compatible values, as an ordered
association list (Python dicts preserve insertion order). -/
abbrev PropMap := List (String × Value)

/-- The value stored under `k`, if the key is present (first occurrence). -/
def dictLookup : PropMap → String → Option Value
  | [], _ => Option.none
  | (k', v) :: rest, k => if k' = k then some v else dictLookup rest k

/-- Python `k in d`. -/
def dictContains (m : PropMap) (k : String) : Bool :=
  (dictLookup m k).isSome

/-- Python `d.get(k)`: the stored value, or `None` when the key is absent. -/
def dictGet (m : PropMap) (k : String) : Value :=
  (dictLookup m k).getD Value.none

/-- Python `d[k] = v`: replace the value in place when the key is present
(keeping its position), append the pair otherwise. -/
def dictSet : PropMap → String → Value → PropMap
  | [], k, v => [(k, v)]
  | (k', w) :: rest, k, v =>
    if k' = k then (k, v) :: rest else (k', w) :: dictSet rest k v

/-- Python `d.pop(k, None)`: remove the key (a no-op when absent). -/
def dictPop (m : PropMap) (k : String) : PropMap :=
  m.filter (fun kv => !(kv.fst == k))

/-- Errors raised by the embedded code. -/
inductive PyError where
  | requiredPropertyMissing (context : String) (prop : String)
  | extensionTypeError (message : String)
  | typeError (message : String)
deriving DecidableEq

/-- Modelled from the spec: `pystac.utils.get_required` (pystac/utils.py is
not under src/). §4.1: `getRequired(map, key, context)` returns the value at
`key`, and fails with `RequiredPropertyMissing(context, key)` when absent or
null; here the already-read value is passed in, as at every call site. -/
def get_required (v : Value) (context : String) (prop : String) :
    Except PyError Value :=
  if v.isNone then Except.error (PyError.requiredPropertyMissing context prop)
  else Except.ok v

/-! ## Property-name constants (source lines 23–45) -/

def DIMENSIONS_PROP : String := "cube:dimensions"
def VARIABLES_PROP : String := "cube:variables"

def DIM_TYPE_PROP : String := "type"
def DIM_DESC_PROP : String := "description"
def DIM_AXIS_PROP : String := "axis"
def DIM_EXTENT_PROP : String := "extent"
def DIM_VALUES_PROP : String := "values"
def DIM_STEP_PROP : String := "step"
def DIM_REF_SYS_PROP : String := "reference_system"
def DIM_UNIT_PROP : String := "unit"

def VAR_TYPE_PROP : String := "type"
def VAR_DESC_PROP : String := "description"
def VAR_DIMS_PROP : String := "dimensions"
def VAR_EXTENT_PROP : String := "extent"
def VAR_STEP_PROP : String := "step"
def VAR_UNIT_PROP : String := "unit"
def VAR_SHAPE_PROP : String := "shape"
def VAR_CHUNKS_PROP : String := "chunks"
def VAR_ATTRS_PROP : String := "attrs"

/-! ## Lemmas about the dict operations -/

theorem dictLookup_dictSet_self (m : PropMap) (k : String) (v : Value) :
    dictLookup (dictSet m k v) k = some v := by
  induction m with
  | nil => simp [dictSet, dictLookup]
  | cons kv rest ih =>
    obtain ⟨k', w⟩ := kv
    by_cases h : k' = k
    · simp [dictSet, dictLookup, h]
    · simp [dictSet, dictLookup, h, ih]

theorem dictLookup_dictSet_other (m : PropMap) (k k' : String) (v : Value)
    (h : k' ≠ k) : dictLookup (dictSet m k v) k' = dictLookup m k' := by
  induction m with
  | nil => simp [dictSet, dictLookup, Ne.symm h]
  | cons kv rest ih =>
    obtain ⟨a, b⟩ := kv
    by_cases ha : a = k
    · subst ha
      simp [dictSet, dictLookup, Ne.symm h]
    · by_cases ha' : a = k'
      · simp [dictSet, dictLookup, ha, ha', h]
      · simp [dictSet, dictLookup, ha, ha', ih]

theorem dictLookup_dictPop_self (m : PropMap) (k : String) :
    dictLookup (dictPop m k) k = Option.none := by
  induction m with
  | nil => simp [dictPop, dictLookup]
  | cons kv rest ih =>
    obtain ⟨a, b⟩ := kv
    by_cases ha : a = k
    · simpa [dictPop, dictLookup, ha] using ih
    · simpa [dictPop, dictLookup, ha] using ih

theorem dictLookup_dictPop_other (m : PropMap) (k k' : String) (h : k' ≠ k) :
    dictLookup (dictPop m k) k' = dictLookup m k' := by
  induction m with
  | nil => simp [dictPop, dictLookup]
  | cons kv rest ih =>
    obtain ⟨a, b⟩ := kv
    by_cases ha : a = k
    · subst ha
      rw [show dictPop ((a, b) :: rest) a = dictPop rest a by
        simp [dictPop]]
      rw [ih]
      simp [dictLookup, Ne.symm h]
    · by_cases ha' : a = k'
      · simp [dictPop, dictLookup, ha, ha', h]
      · rw [show dictPop ((a, b) :: rest) k = (a, b) :: dictPop rest k by
          simp [dictPop, ha]]
        simp [dictLookup, ha', ih]

theorem dictContains_dictSet_self (m : PropMap) (k : String) (v : Value) :
    dictContains (dictSet m k v) k = true := by
  simp [dictContains, dictLookup_dictSet_self]

theorem dictContains_dictPop_self (m : PropMap) (k : String) :
    dictContains (dictPop m k) k = false := by
  simp [dictContains, dictLookup_dictPop_self]

theorem dictGet_dictSet_self (m : PropMap) (k : String) (v : Value) :
    dictGet (dictSet m k v) k = v := by
  simp [dictGet, dictLookup_dictSet_self]

theorem dictGet_dictSet_other (m : PropMap) (k k' : String) (v : Value)
    (h : k' ≠ k) : dictGet (dictSet m k v) k' = dictGet m k' := by
  simp [dictGet, dictLookup_dictSet_other m k k' v h]

theorem dictGet_dictPop_self (m : PropMap) (k : String) :
    dictGet (dictPop m k) k = Value.none := by
  simp [dictGet, dictLookup_dictPop_self]

theorem dictGet_of_not_contains (m : PropMap) (k : String)
    (h : dictContains m k = false) : dictGet m k = Value.none := by
  unfold dictContains at h
  unfold dictGet
  cases hl : dictLookup m k with
  | none => rfl
  | some v => rw [hl] at h; simp at h

theorem Value.isNone_iff (v : Value) : v.isNone = true ↔ v = Value.none := by
  cases v <;> simp [Value.isNone]

theorem Value.eqStr_iff (v : Value) (s : String) :
    v.eqStr s = true ↔ v = Value.str s := by
  cases v <;> simp [Value.eqStr]

theorem Value.eqStr_eq_false (v : Value) (s : String) (h : v ≠ Value.str s) :
    v.eqStr s = false := by
  rw [← Bool.not_eq_true, Value.eqStr_iff]
  exact h

theorem Value.isNone_eq_false (v : Value) (h : v ≠ Value.none) :
    v.isNone = false := by
  rw [← Bool.not_eq_true, Value.isNone_iff]
  exact h

/-! ## Dimension variants (source lines 48–322)

Each Python `Dimension` subclass is a thin view over the shared property
mapping; its accessors are embedded as functions on `PropMap` in the
subclass's namespace (getters read the mapping, setters return the updated
mapping).  The result of the classifier `Dimension.from_dict` is a tagged
value carrying the wrapped mapping. -/

/-- The variant produced by `Dimension.from_dict`, wrapping the property
mapping it was constructed from. -/
inductive Dimension where
  | vertical (properties : PropMap)
  | horizontal (properties : PropMap)
  | temporal (properties : PropMap)
  | additional (properties : PropMap)

/-- The `self.properties` attribute set by `Dimension.__init__`. -/
def Dimension.properties : Dimension → PropMap
  | Dimension.vertical p => p
  | Dimension.horizontal p => p
  | Dimension.temporal p => p
  | Dimension.additional p => p

/-- Method `Dimension.to_dict`: returns `self.properties` (source line 73–74). -/
def Dimension.to_dict (d : Dimension) : PropMap :=
  d.properties

/-- Classifier `Dimension.from_dict` (source lines 76–96): the variant classifier.
Reads `type` (via `d.get`, so an absent key and a stored `None` both read as
`None`); `None` raises `RequiredPropertyMissing("cube_dimension", "type")`.
`"spatial"` then reads `axis` the same way, raising
`RequiredPropertyMissing("cube_dimension", "axis")` on `None`, and yields
`VerticalSpatialDimension` for `axis == "z"`, `HorizontalSpatialDimension`
otherwise.  `"temporal"` yields `TemporalDimension`; any other value yields
`AdditionalDimension`. -/
def Dimension.from_dict (d : PropMap) : Except PyError Dimension :=
  let dim_type := dictGet d DIM_TYPE_PROP
  if dim_type.isNone then
    Except.error (PyError.requiredPropertyMissing "cube_dimension" DIM_TYPE_PROP)
  else if dim_type.eqStr "spatial" then
    let axis := dictGet d DIM_AXIS_PROP
    if axis.isNone then
      Except.error (PyError.requiredPropertyMissing "cube_dimension" DIM_AXIS_PROP)
    else if axis.eqStr "z" then
      Except.ok (Dimension.vertical d)
    else
      Except.ok (Dimension.horizontal d)
  else if dim_type.eqStr "temporal" then
    Except.ok (Dimension.temporal d)
  else
    Except.ok (Dimension.additional d)

namespace Dimension

/-- Getter `Dimension.dim_type` (source lines 52–56). -/
def dim_type (self : PropMap) : Except PyError Value :=
  get_required (dictGet self DIM_TYPE_PROP) "cube:dimension" DIM_TYPE_PROP

/-- Setter `Dimension.dim_type` (source lines 58–60). -/
def set_dim_type (self : PropMap) (v : Value) : PropMap :=
  dictSet self DIM_TYPE_PROP v

/-- Getter `Dimension.description` (source lines 62–64). -/
def description (self : PropMap) : Value :=
  dictGet self DIM_DESC_PROP

/-- Setter `Dimension.description` (source lines 66–71): `None` pops the
key, anything else stores the value. -/
def set_description (self : PropMap) (v : Value) : PropMap :=
  if v.isNone then dictPop self DIM_DESC_PROP
  else dictSet self DIM_DESC_PROP v

end Dimension

namespace HorizontalSpatialDimension

/-- Getter `HorizontalSpatialDimension.axis` (source lines 100–104). -/
def axis (self : PropMap) : Except PyError Value :=
  get_required (dictGet self DIM_AXIS_PROP) "cube:dimension" DIM_AXIS_PROP

/-- Setter `HorizontalSpatialDimension.axis` (source lines 106–108): the
source stores the assigned value under `DIM_TYPE_PROP`, not
`DIM_AXIS_PROP`. -/
def set_axis (self : PropMap) (v : Value) : PropMap :=
  dictSet self DIM_TYPE_PROP v

/-- Getter `HorizontalSpatialDimension.extent` (source lines 110–114):
required. -/
def extent (self : PropMap) : Except PyError Value :=
  get_required (dictGet self DIM_EXTENT_PROP) "cube:dimension" DIM_EXTENT_PROP

/-- Setter `HorizontalSpatialDimension.extent` (source lines 116–118):
stores the value unconditionally. -/
def set_extent (self : PropMap) (v : Value) : PropMap :=
  dictSet self DIM_EXTENT_PROP v

/-- Getter `HorizontalSpatialDimension.values` (source lines 120–122). -/
def values (self : PropMap) : Value :=
  dictGet self DIM_VALUES_PROP

/-- Setter `HorizontalSpatialDimension.values` (source lines 124–129). -/
def set_values (self : PropMap) (v : Value) : PropMap :=
  if v.isNone then dictPop self DIM_VALUES_PROP
  else dictSet self DIM_VALUES_PROP v

/-- Getter `HorizontalSpatialDimension.step` (source lines 131–133). -/
def step (self : PropMap) : Value :=
  dictGet self DIM_STEP_PROP

/-- Setter `HorizontalSpatialDimension.step` (source lines 135–137): stores
the value even when it is `None`. -/
def set_step (self : PropMap) (v : Value) : PropMap :=
  dictSet self DIM_STEP_PROP v

/-- Method `HorizontalSpatialDimension.clear_step` (source lines 139–143): pops
the key. -/
def clear_step (self : PropMap) : PropMap :=
  dictPop self DIM_STEP_PROP

/-- Getter `HorizontalSpatialDimension.reference_system` (source lines
145–147). -/
def reference_system (self : PropMap) : Value :=
  dictGet self DIM_REF_SYS_PROP

/-- Setter `HorizontalSpatialDimension.reference_system` (source lines
149–154). -/
def set_reference_system (self : PropMap) (v : Value) : PropMap :=
  if v.isNone then dictPop self DIM_REF_SYS_PROP
  else dictSet self DIM_REF_SYS_PROP v

end HorizontalSpatialDimension

namespace VerticalSpatialDimension

/-- Getter `VerticalSpatialDimension.axis` (source lines 158–162). -/
def axis (self : PropMap) : Except PyError Value :=
  get_required (dictGet self DIM_AXIS_PROP) "cube:dimension" DIM_AXIS_PROP

/-- Setter `VerticalSpatialDimension.axis` (source lines 164–166): stores
the assigned value under `DIM_TYPE_PROP`, not `DIM_AXIS_PROP`. -/
def set_axis (self : PropMap) (v : Value) : PropMap :=
  dictSet self DIM_TYPE_PROP v

/-- Getter `VerticalSpatialDimension.extent` (source lines 168–170):
optional. -/
def extent (self : PropMap) : Value :=
  dictGet self DIM_EXTENT_PROP

/-- Setter `VerticalSpatialDimension.extent` (source lines 172–177). -/
def set_extent (self : PropMap) (v : Value) : PropMap :=
  if v.isNone then dictPop self DIM_EXTENT_PROP
  else dictSet self DIM_EXTENT_PROP v

/-- Getter `VerticalSpatialDimension.values` (source lines 179–181). -/
def values (self : PropMap) : Value :=
  dictGet self DIM_VALUES_PROP

/-- Setter `VerticalSpatialDimension.values` (source lines 183–188). -/
def set_values (self : PropMap) (v : Value) : PropMap :=
  if v.isNone then dictPop self DIM_VALUES_PROP
  else dictSet self DIM_VALUES_PROP v

/-- Getter `VerticalSpatialDimension.step` (source lines 190–192). -/
def step (self : PropMap) : Value :=
  dictGet self DIM_STEP_PROP

/-- Setter `VerticalSpatialDimension.step` (source lines 194–196): stores
the value even when it is `None`. -/
def set_step (self : PropMap) (v : Value) : PropMap :=
  dictSet self DIM_STEP_PROP v

/-- Method `VerticalSpatialDimension.clear_step` (source lines 198–202). -/
def clear_step (self : PropMap) : PropMap :=
  dictPop self DIM_STEP_PROP

/-- Getter `VerticalSpatialDimension.unit` (source lines 204–206). -/
def unit (self : PropMap) : Value :=
  dictGet self DIM_UNIT_PROP

/-- Setter `VerticalSpatialDimension.unit` (source lines 208–213). -/
def set_unit (self : PropMap) (v : Value) : PropMap :=
  if v.isNone then dictPop self DIM_UNIT_PROP
  else dictSet self DIM_UNIT_PROP v

/-- Getter `VerticalSpatialDimension.reference_system` (source lines
215–217). -/
def reference_system (self : PropMap) : Value :=
  dictGet self DIM_REF_SYS_PROP

/-- Setter `VerticalSpatialDimension.reference_system` (source lines
219–224). -/
def set_reference_system (self : PropMap) (v : Value) : PropMap :=
  if v.isNone then dictPop self DIM_REF_SYS_PROP
  else dictSet self DIM_REF_SYS_PROP v

end VerticalSpatialDimension

namespace TemporalDimension

/-- Getter `TemporalDimension.extent` (source lines 228–230). -/
def extent (self : PropMap) : Value :=
  dictGet self DIM_EXTENT_PROP

/-- Setter `TemporalDimension.extent` (source lines 232–237). -/
def set_extent (self : PropMap) (v : Value) : PropMap :=
  if v.isNone then dictPop self DIM_EXTENT_PROP
  else dictSet self DIM_EXTENT_PROP v

/-- Getter `TemporalDimension.values` (source lines 239–241). -/
def values (self : PropMap) : Value :=
  dictGet self DIM_VALUES_PROP

/-- Setter `TemporalDimension.values` (source lines 243–248). -/
def set_values (self : PropMap) (v : Value) : PropMap :=
  if v.isNone then dictPop self DIM_VALUES_PROP
  else dictSet self DIM_VALUES_PROP v

/-- Getter `TemporalDimension.step` (source lines 250–252). -/
def step (self : PropMap) : Value :=
  dictGet self DIM_STEP_PROP

/-- Setter `TemporalDimension.step` (source lines 254–256): stores the
value even when it is `None`. -/
def set_step (self : PropMap) (v : Value) : PropMap :=
  dictSet self DIM_STEP_PROP v

/-- Method `TemporalDimension.clear_step` (source lines 258–262). -/
def clear_step (self : PropMap) : PropMap :=
  dictPop self DIM_STEP_PROP

end TemporalDimension

namespace AdditionalDimension

/-- Getter `AdditionalDimension.extent` (source lines 266–268). -/
def extent (self : PropMap) : Value :=
  dictGet self DIM_EXTENT_PROP

/-- Setter `AdditionalDimension.extent` (source lines 270–275). -/
def set_extent (self : PropMap) (v : Value) : PropMap :=
  if v.isNone then dictPop self DIM_EXTENT_PROP
  else dictSet self DIM_EXTENT_PROP v

/-- Getter `AdditionalDimension.values` (source lines 277–279). -/
def values (self : PropMap) : Value :=
  dictGet self DIM_VALUES_PROP

/-- Setter `AdditionalDimension.values` (source lines 281–286). -/
def set_values (self : PropMap) (v : Value) : PropMap :=
  if v.isNone then dictPop self DIM_VALUES_PROP
  else dictSet self DIM_VALUES_PROP v

/-- Getter `AdditionalDimension.step` (source lines 288–290). -/
def step (self : PropMap) : Value :=
  dictGet self DIM_STEP_PROP

/-- Setter `AdditionalDimension.step` (source lines 292–294): stores the
value even when it is `None`. -/
def set_step (self : PropMap) (v : Value) : PropMap :=
  dictSet self DIM_STEP_PROP v

/-- Method `AdditionalDimension.clear_step` (source lines 296–300). -/
def clear_step (self : PropMap) : PropMap :=
  dictPop self DIM_STEP_PROP

/-- Getter `AdditionalDimension.unit` (source lines 302–304). -/
def unit (self : PropMap) : Value :=
  dictGet self DIM_UNIT_PROP

/-- Setter `AdditionalDimension.unit` (source lines 306–311). -/
def set_unit (self : PropMap) (v : Value) : PropMap :=
  if v.isNone then dictPop self DIM_UNIT_PROP
  else dictSet self DIM_UNIT_PROP v

/-- Getter `AdditionalDimension.reference_system` (source lines 313–315). -/
def reference_system (self : PropMap) : Value :=
  dictGet self DIM_REF_SYS_PROP

/-- Setter `AdditionalDimension.reference_system` (source lines 317–322). -/
def set_reference_system (self : PropMap) (v : Value) : PropMap :=
  if v.isNone then dictPop self DIM_REF_SYS_PROP
  else dictSet self DIM_REF_SYS_PROP v

end AdditionalDimension

/-! ## Variable (source lines 325–432) -/

/-- A `Variable` view: `Variable.__init__` stores the mapping as
`self.properties` (source lines 326–327). -/
structure Variable where
  properties : PropMap

/-- Method `Variable.from_dict` (source lines 430–432): wraps the mapping with no
inspection. -/
def Variable.from_dict (d : PropMap) : Variable :=
  Variable.mk d

/-- Method `Variable.to_dict` (source lines 350–351): returns `self.properties`. -/
def Variable.to_dict (v : Variable) : PropMap :=
  v.properties

namespace Variable

/-- Getter `Variable.var_type` (source lines 329–333). -/
def var_type (self : PropMap) : Except PyError Value :=
  get_required (dictGet self VAR_TYPE_PROP) "cube:variables" VAR_TYPE_PROP

/-- Setter `Variable.var_type` (source lines 335–337). -/
def set_var_type (self : PropMap) (v : Value) : PropMap :=
  dictSet self VAR_TYPE_PROP v

/-- Getter `Variable.description` (source lines 339–341). -/
def description (self : PropMap) : Value :=
  dictGet self VAR_DESC_PROP

/-- Setter `Variable.description` (source lines 343–348). -/
def set_description (self : PropMap) (v : Value) : PropMap :=
  if v.isNone then dictPop self VAR_DESC_PROP
  else dictSet self VAR_DESC_PROP v

/-- Getter `Variable.dimensions` (source lines 353–357).  The source reads
`self.properties.get(VAR_DIMS_PROP, "cube:dimensions", VAR_DIMS_PROP)`:
`dict.get` accepts at most two arguments, so the call raises `TypeError`
before `get_required` is ever applied, on every input. -/
def dimensions (_self : PropMap) : Except PyError Value :=
  Except.error (PyError.typeError "get expected at most 2 arguments, got 3")

/-- Setter `Variable.dimensions` (source lines 359–361): stores the value
unconditionally (even `None`). -/
def set_dimensions (self : PropMap) (v : Value) : PropMap :=
  dictSet self VAR_DIMS_PROP v

/-- Getter `Variable.values` (source lines 363–365).  The source reads
`DIM_UNIT_PROP` (the key `"unit"`), not a `values` key. -/
def values (self : PropMap) : Value :=
  dictGet self DIM_UNIT_PROP

/-- Getter `Variable.extent` (source lines 367–369). -/
def extent (self : PropMap) : Value :=
  dictGet self VAR_EXTENT_PROP

/-- Setter `Variable.extent` (source lines 371–376). -/
def set_extent (self : PropMap) (v : Value) : PropMap :=
  if v.isNone then dictPop self VAR_EXTENT_PROP
  else dictSet self VAR_EXTENT_PROP v

/-- Getter `Variable.step` (source lines 378–380). -/
def step (self : PropMap) : Value :=
  dictGet self VAR_STEP_PROP

/-- Setter `Variable.step` (source lines 382–384): stores the value
unconditionally, even when it is `None` (no pop branch, unlike the other
optional fields). -/
def set_step (self : PropMap) (v : Value) : PropMap :=
  dictSet self VAR_STEP_PROP v

/-- Getter `Variable.unit` (source lines 386–388). -/
def unit (self : PropMap) : Value :=
  dictGet self VAR_UNIT_PROP

/-- Setter `Variable.unit` (source lines 390–395). -/
def set_unit (self : PropMap) (v : Value) : PropMap :=
  if v.isNone then dictPop self VAR_UNIT_PROP
  else dictSet self VAR_UNIT_PROP v

/-- Getter `Variable.shape` (source lines 397–399). -/
def shape (self : PropMap) : Value :=
  dictGet self VAR_SHAPE_PROP

/-- Setter `Variable.shape` (source lines 401–406). -/
def set_shape (self : PropMap) (v : Value) : PropMap :=
  if v.isNone then dictPop self VAR_SHAPE_PROP
  else dictSet self VAR_SHAPE_PROP v

/-- Getter `Variable.chunks` (source lines 408–410). -/
def chunks (self : PropMap) : Value :=
  dictGet self VAR_CHUNKS_PROP

/-- Setter `Variable.chunks` (source lines 412–417). -/
def set_chunks (self : PropMap) (v : Value) : PropMap :=
  if v.isNone then dictPop self VAR_CHUNKS_PROP
  else dictSet self VAR_CHUNKS_PROP v

/-- Getter `Variable.attrs` (source lines 419–421). -/
def attrs (self : PropMap) : Value :=
  dictGet self VAR_ATTRS_PROP

/-- Setter `Variable.attrs` (source lines 423–428). -/
def set_attrs (self : PropMap) (v : Value) : PropMap :=
  if v.isNone then dictPop self VAR_ATTRS_PROP
  else dictSet self VAR_ATTRS_PROP v

end Variable

/-! ## Extension facade (source lines 457–540)

The host document objects (`pystac.Collection`, `pystac.Item`,
`pystac.Asset`) are external to this file's source module; for the factory
they matter only through their runtime kind and the property mappings the
facade constructors read, which is what the embedding carries. -/

/-- The owner back-reference of an asset (`asset.owner` may be an `Item`, a
`Collection`, or absent). -/
inductive Owner where
  | item (properties : PropMap)
  | collection (extra_fields : PropMap)

/-- A host object, by runtime kind, carrying the property mapping each
facade constructor reads.  `other` stands for any object of a kind outside
{Collection, Item, Asset}. -/
inductive STACObject where
  | collection (extra_fields : PropMap)
  | item (properties : PropMap)
  | asset (href : String) (properties : PropMap) (owner : Option Owner)
  | other (kind : String)

/-- The facade produced by the factory: which subclass was constructed and
the attributes its `__init__` set.  `additional_read_properties` is the
read-only fallback chain set by `AssetDatacubeExtension.__init__` (absent
in the other two subclasses and for ownerless assets). -/
inductive DatacubeExtensionView where
  | collectionExt (properties : PropMap)
  | itemExt (properties : PropMap)
  | assetExt (asset_href : String) (properties : PropMap)
      (additional_read_properties : Option (List PropMap))

/-- Constructor `CollectionDatacubeExtension.__init__` (source lines 515–517):
`self.properties = collection.extra_fields`. -/
def CollectionDatacubeExtension.init (extra_fields : PropMap) :
    DatacubeExtensionView :=
  DatacubeExtensionView.collectionExt extra_fields

/-- Constructor `ItemDatacubeExtension.__init__` (source lines 524–526):
`self.properties = item.properties`. -/
def ItemDatacubeExtension.init (properties : PropMap) :
    DatacubeExtensionView :=
  DatacubeExtensionView.itemExt properties

/-- Constructor `AssetDatacubeExtension.__init__` (source lines 533–537):
`self.properties = asset.properties`, and
`self.additional_read_properties = [asset.owner.properties]` exactly when
`asset.owner` exists and is an `Item`. -/
def AssetDatacubeExtension.init (asset_href : String) (properties : PropMap)
    (owner : Option Owner) : DatacubeExtensionView :=
  DatacubeExtensionView.assetExt asset_href properties
    (match owner with
      | some (Owner.item p) => some [p]
      | _ => Option.none)

/-- Factory `DatacubeExtension.ext` (source lines 500–511): dispatch on the host
object's runtime kind; any kind outside {Collection, Item, Asset} raises
`ExtensionTypeError`. -/
def DatacubeExtension.ext : STACObject → Except PyError DatacubeExtensionView
  | STACObject.collection ef =>
    Except.ok (CollectionDatacubeExtension.init ef)
  | STACObject.item p =>
    Except.ok (ItemDatacubeExtension.init p)
  | STACObject.asset h p o =>
    Except.ok (AssetDatacubeExtension.init h p o)
  | STACObject.other kind =>
    Except.error (PyError.extensionTypeError
      ("Datacube extension does not apply to type " ++ kind))

/-- First non-`None` value for `k` among the fallback mappings. -/
def firstRead : List PropMap → String → Value
  | [], _ => Value.none
  | m :: rest, k =>
    let v := dictGet m k
    if v.isNone then firstRead rest k else v

/-- Modelled from the spec: `PropertiesExtension._get_property`
(pystac/extensions/base.py is not under src/).  §4.4: the asset facade
reads its own property mapping and "additionally chain[s] a read-only
fallback lookup into the owning item's properties when the asset has a
known owning item"; the other facades read their own mapping only. -/
def DatacubeExtensionView.get_property (e : DatacubeExtensionView)
    (k : String) : Value :=
  match e with
  | DatacubeExtensionView.collectionExt p => dictGet p k
  | DatacubeExtensionView.itemExt p => dictGet p k
  | DatacubeExtensionView.assetExt _ p add =>
    let v := dictGet p k
    if v.isNone then
      match add with
      | some maps => firstRead maps k
      | Option.none => Value.none
    else v

/-! ## Claim theorems -/

/-- C1: For every property mapping providing a `type` value (and, when the
type is `"spatial"`, an `axis` value), `Dimension.from_dict` returns exactly
the variant given by the discriminant table: type `"spatial"` with axis
`"z"` yields `VerticalSpatialDimension`; type `"spatial"` with any other
axis yields `HorizontalSpatialDimension`; type `"temporal"` yields
`TemporalDimension`; any other type value yields `AdditionalDimension`. -/
theorem dimension_from_dict_classification (d : PropMap) :
    (dictGet d DIM_TYPE_PROP = Value.str "spatial" →
        dictGet d DIM_AXIS_PROP = Value.str "z" →
        Dimension.from_dict d = Except.ok (Dimension.vertical d))
    ∧ (dictGet d DIM_TYPE_PROP = Value.str "spatial" →
        (dictGet d DIM_AXIS_PROP).isNone = false →
        dictGet d DIM_AXIS_PROP ≠ Value.str "z" →
        Dimension.from_dict d = Except.ok (Dimension.horizontal d))
    ∧ (dictGet d DIM_TYPE_PROP = Value.str "temporal" →
        Dimension.from_dict d = Except.ok (Dimension.temporal d))
    ∧ ((dictGet d DIM_TYPE_PROP).isNone = false →
        dictGet d DIM_TYPE_PROP ≠ Value.str "spatial" →
        dictGet d DIM_TYPE_PROP ≠ Value.str "temporal" →
        Dimension.from_dict d = Except.ok (Dimension.additional d)) := by
  refine ⟨?_, ?_, ?_, ?_⟩
  · intro h1 h2
    simp [Dimension.from_dict, h1, h2,
      show (Value.str "spatial").isNone = false from rfl,
      show (Value.str "spatial").eqStr "spatial" = true from rfl,
      show (Value.str "z").isNone = false from rfl,
      show (Value.str "z").eqStr "z" = true from rfl]
  · intro h1 h2 h3
    simp [Dimension.from_dict, h1, h2,
      show (Value.str "spatial").isNone = false from rfl,
      show (Value.str "spatial").eqStr "spatial" = true from rfl,
      Value.eqStr_eq_false _ _ h3]
  · intro h1
    simp [Dimension.from_dict, h1,
      show (Value.str "temporal").isNone = false from rfl,
      show (Value.str "temporal").eqStr "spatial" = false from rfl,
      show (Value.str "temporal").eqStr "temporal" = true from rfl]
  · intro h1 h2 h3
    simp [Dimension.from_dict, h1,
      Value.eqStr_eq_false _ _ h2, Value.eqStr_eq_false _ _ h3]

/-- C1 witness: all four rows of the discriminant table, each at a concrete
mapping. -/
theorem dimension_from_dict_classification_witness :
    Dimension.from_dict
        [(DIM_TYPE_PROP, Value.str "spatial"), (DIM_AXIS_PROP, Value.str "z")]
      = Except.ok (Dimension.vertical
        [(DIM_TYPE_PROP, Value.str "spatial"), (DIM_AXIS_PROP, Value.str "z")])
    ∧ Dimension.from_dict
        [(DIM_TYPE_PROP, Value.str "spatial"), (DIM_AXIS_PROP, Value.str "x")]
      = Except.ok (Dimension.horizontal
        [(DIM_TYPE_PROP, Value.str "spatial"), (DIM_AXIS_PROP, Value.str "x")])
    ∧ Dimension.from_dict [(DIM_TYPE_PROP, Value.str "temporal")]
      = Except.ok (Dimension.temporal [(DIM_TYPE_PROP, Value.str "temporal")])
    ∧ Dimension.from_dict [(DIM_TYPE_PROP, Value.str "geometry")]
      = Except.ok (Dimension.additional [(DIM_TYPE_PROP, Value.str "geometry")]) :=
  ⟨(dimension_from_dict_classification _).1 rfl rfl,
   (dimension_from_dict_classification _).2.1 rfl rfl
     (by
       intro h
       have h2 : Value.str "x" = Value.str "z" := h
       rw [Value.str.injEq] at h2
       exact absurd h2 (by decide)),
   (dimension_from_dict_classification _).2.2.1 rfl,
   (dimension_from_dict_classification _).2.2.2 rfl
     (by
       intro h
       have h2 : Value.str "geometry" = Value.str "spatial" := h
       rw [Value.str.injEq] at h2
       exact absurd h2 (by decide))
     (by
       intro h
       have h2 : Value.str "geometry" = Value.str "temporal" := h
       rw [Value.str.injEq] at h2
       exact absurd h2 (by decide))⟩

/-- C2 counterexample: on the empty mapping (no `type` key),
`Dimension.from_dict` raises `RequiredPropertyMissing` with context
`"cube_dimension"`, not the context `"cube:dimension"` the claim names. -/
theorem dimension_from_dict_error_context_counterexample :
    Dimension.from_dict [] =
      Except.error (PyError.requiredPropertyMissing "cube_dimension" DIM_TYPE_PROP)
    ∧ "cube_dimension" ≠ "cube:dimension" :=
  ⟨rfl, by decide⟩

set_option maxRecDepth 10000 in
/-- C2 (amended): `Dimension.from_dict` fails exactly when the `type` value
read from the mapping is `None` (key absent or stored null) — with a
missing-required-property error whose context is `"cube_dimension"` and
whose field is `type` — or when the type is `"spatial"` and the `axis`
value read is `None` — with the same error kind, context `"cube_dimension"`
and field `axis`; these are its only failure modes. -/
theorem dimension_from_dict_failure_modes (d : PropMap) (e : PyError) :
    Dimension.from_dict d = Except.error e ↔
      ((dictGet d DIM_TYPE_PROP).isNone = true ∧
        e = PyError.requiredPropertyMissing "cube_dimension" DIM_TYPE_PROP)
      ∨ (dictGet d DIM_TYPE_PROP = Value.str "spatial" ∧
          (dictGet d DIM_AXIS_PROP).isNone = true ∧
          e = PyError.requiredPropertyMissing "cube_dimension" DIM_AXIS_PROP) := by
  by_cases h1 : (dictGet d DIM_TYPE_PROP).isNone = true
  · have h1' := (Value.isNone_iff _).mp h1
    simp [Dimension.from_dict, h1',
      show (Value.none).isNone = true from rfl]
    exact eq_comm
  · have h1f : (dictGet d DIM_TYPE_PROP).isNone = false := by
      revert h1
      cases (dictGet d DIM_TYPE_PROP).isNone <;> simp
    by_cases h2 : (dictGet d DIM_TYPE_PROP).eqStr "spatial" = true
    · have h2' := (Value.eqStr_iff _ _).mp h2
      by_cases h3 : (dictGet d DIM_AXIS_PROP).isNone = true
      · simp [Dimension.from_dict, h2', h3,
          show (Value.str "spatial").isNone = false from rfl,
          show (Value.str "spatial").eqStr "spatial" = true from rfl, eq_comm]
      · have h3f : (dictGet d DIM_AXIS_PROP).isNone = false := by
          revert h3
          cases (dictGet d DIM_AXIS_PROP).isNone <;> simp
        by_cases h4 : (dictGet d DIM_AXIS_PROP).eqStr "z" = true
        · simp [Dimension.from_dict, h2', h3f, h4,
            show (Value.str "spatial").isNone = false from rfl,
            show (Value.str "spatial").eqStr "spatial" = true from rfl]
        · have h4f : (dictGet d DIM_AXIS_PROP).eqStr "z" = false := by
            revert h4
            cases (dictGet d DIM_AXIS_PROP).eqStr "z" <;> simp
          simp [Dimension.from_dict, h2', h3f, h4f,
            show (Value.str "spatial").isNone = false from rfl,
            show (Value.str "spatial").eqStr "spatial" = true from rfl]
    · have h2f : (dictGet d DIM_TYPE_PROP).eqStr "spatial" = false := by
        revert h2
        cases (dictGet d DIM_TYPE_PROP).eqStr "spatial" <;> simp
      have h2ne : dictGet d DIM_TYPE_PROP ≠ Value.str "spatial" := by
        intro hh
        rw [hh] at h2f
        simp [Value.eqStr] at h2f
      by_cases h5 : (dictGet d DIM_TYPE_PROP).eqStr "temporal" = true
      · simp [Dimension.from_dict, h1f, h2f, h5, h2ne]
      · have h5f : (dictGet d DIM_TYPE_PROP).eqStr "temporal" = false := by
          revert h5
          cases (dictGet d DIM_TYPE_PROP).eqStr "temporal" <;> simp
        simp [Dimension.from_dict, h1f, h2f, h5f, h2ne]

/-- C2 witness: the two failure modes at concrete inputs, via the
characterization. -/
theorem dimension_from_dict_failure_modes_witness :
    Dimension.from_dict [(DIM_DESC_PROP, Value.str "d")] =
      Except.error (PyError.requiredPropertyMissing "cube_dimension" DIM_TYPE_PROP)
    ∧ Dimension.from_dict [(DIM_TYPE_PROP, Value.str "spatial")] =
      Except.error (PyError.requiredPropertyMissing "cube_dimension" DIM_AXIS_PROP) :=
  ⟨(dimension_from_dict_failure_modes _ _).mpr (Or.inl ⟨rfl, rfl⟩),
   (dimension_from_dict_failure_modes _ _).mpr (Or.inr ⟨rfl, rfl, rfl⟩)⟩

/-- C3: On every dimension variant view, `step` has three distinguishable
states: with the `step` key absent, reading `step` returns the absent
marker (`None`); after assigning the explicit null to `step`, the key is
present in the mapping holding null and reading `step` returns that null;
after `clear_step`, the key is removed entirely and reading `step` returns
the absent marker again. -/
theorem dimension_step_tristate (m : PropMap)
    (h : dictContains m DIM_STEP_PROP = false) :
    (HorizontalSpatialDimension.step m = Value.none
      ∧ VerticalSpatialDimension.step m = Value.none
      ∧ TemporalDimension.step m = Value.none
      ∧ AdditionalDimension.step m = Value.none)
    ∧ (dictContains (HorizontalSpatialDimension.set_step m Value.none)
          DIM_STEP_PROP = true
      ∧ dictLookup (HorizontalSpatialDimension.set_step m Value.none)
          DIM_STEP_PROP = some Value.none
      ∧ HorizontalSpatialDimension.step
          (HorizontalSpatialDimension.set_step m Value.none) = Value.none
      ∧ dictContains (VerticalSpatialDimension.set_step m Value.none)
          DIM_STEP_PROP = true
      ∧ dictLookup (VerticalSpatialDimension.set_step m Value.none)
          DIM_STEP_PROP = some Value.none
      ∧ VerticalSpatialDimension.step
          (VerticalSpatialDimension.set_step m Value.none) = Value.none
      ∧ dictContains (TemporalDimension.set_step m Value.none)
          DIM_STEP_PROP = true
      ∧ dictLookup (TemporalDimension.set_step m Value.none)
          DIM_STEP_PROP = some Value.none
      ∧ TemporalDimension.step
          (TemporalDimension.set_step m Value.none) = Value.none
      ∧ dictContains (AdditionalDimension.set_step m Value.none)
          DIM_STEP_PROP = true
      ∧ dictLookup (AdditionalDimension.set_step m Value.none)
          DIM_STEP_PROP = some Value.none
      ∧ AdditionalDimension.step
          (AdditionalDimension.set_step m Value.none) = Value.none)
    ∧ (dictContains (HorizontalSpatialDimension.clear_step
          (HorizontalSpatialDimension.set_step m Value.none))
          DIM_STEP_PROP = false
      ∧ HorizontalSpatialDimension.step (HorizontalSpatialDimension.clear_step
          (HorizontalSpatialDimension.set_step m Value.none)) = Value.none
      ∧ dictContains (VerticalSpatialDimension.clear_step
          (VerticalSpatialDimension.set_step m Value.none))
          DIM_STEP_PROP = false
      ∧ VerticalSpatialDimension.step (VerticalSpatialDimension.clear_step
          (VerticalSpatialDimension.set_step m Value.none)) = Value.none
      ∧ dictContains (TemporalDimension.clear_step
          (TemporalDimension.set_step m Value.none))
          DIM_STEP_PROP = false
      ∧ TemporalDimension.step (TemporalDimension.clear_step
          (TemporalDimension.set_step m Value.none)) = Value.none
      ∧ dictContains (AdditionalDimension.clear_step
          (AdditionalDimension.set_step m Value.none))
          DIM_STEP_PROP = false
      ∧ AdditionalDimension.step (AdditionalDimension.clear_step
          (AdditionalDimension.set_step m Value.none)) = Value.none) := by
  refine ⟨⟨?_, ?_, ?_, ?_⟩, ⟨?_, ?_, ?_, ?_, ?_, ?_, ?_, ?_, ?_, ?_, ?_, ?_⟩,
    ⟨?_, ?_, ?_, ?_, ?_, ?_, ?_, ?_⟩⟩ <;>
  simp [HorizontalSpatialDimension.step, HorizontalSpatialDimension.set_step,
    HorizontalSpatialDimension.clear_step,
    VerticalSpatialDimension.step, VerticalSpatialDimension.set_step,
    VerticalSpatialDimension.clear_step,
    TemporalDimension.step, TemporalDimension.set_step,
    TemporalDimension.clear_step,
    AdditionalDimension.step, AdditionalDimension.set_step,
    AdditionalDimension.clear_step,
    dictGet_of_not_contains m DIM_STEP_PROP h,
    dictContains_dictSet_self, dictLookup_dictSet_self, dictGet_dictSet_self,
    dictContains_dictPop_self, dictGet_dictPop_self]

/-- C3 witness: the tri-state at the empty mapping. -/
theorem dimension_step_tristate_witness :
    HorizontalSpatialDimension.step ([] : PropMap) = Value.none :=
  (dimension_step_tristate [] rfl).1.1

/-- C4: On every dimension variant view, each optional field among
`description`, `extent`, `values`, `unit` and `reference_system` that the
variant exposes deletes its key from the underlying mapping when assigned
the absent value, and stores exactly the assigned value under its key when
assigned a concrete one; `step` is the only exception (assigning the absent
value to it keeps the key present).  `HorizontalSpatialDimension.extent` is
required, not optional, and so is outside the claim's scope. -/
theorem dimension_optional_setters (m : PropMap) (v : Value)
    (hv : v.isNone = false) :
    (dictContains (Dimension.set_description m Value.none)
        DIM_DESC_PROP = false
      ∧ dictLookup (Dimension.set_description m v) DIM_DESC_PROP = some v)
    ∧ (dictContains (HorizontalSpatialDimension.set_values m Value.none)
        DIM_VALUES_PROP = false
      ∧ dictLookup (HorizontalSpatialDimension.set_values m v)
          DIM_VALUES_PROP = some v
      ∧ dictContains (HorizontalSpatialDimension.set_reference_system m
          Value.none) DIM_REF_SYS_PROP = false
      ∧ dictLookup (HorizontalSpatialDimension.set_reference_system m v)
          DIM_REF_SYS_PROP = some v)
    ∧ (dictContains (VerticalSpatialDimension.set_extent m Value.none)
        DIM_EXTENT_PROP = false
      ∧ dictLookup (VerticalSpatialDimension.set_extent m v)
          DIM_EXTENT_PROP = some v
      ∧ dictContains (VerticalSpatialDimension.set_values m Value.none)
          DIM_VALUES_PROP = false
      ∧ dictLookup (VerticalSpatialDimension.set_values m v)
          DIM_VALUES_PROP = some v
      ∧ dictContains (VerticalSpatialDimension.set_unit m Value.none)
          DIM_UNIT_PROP = false
      ∧ dictLookup (VerticalSpatialDimension.set_unit m v)
          DIM_UNIT_PROP = some v
      ∧ dictContains (VerticalSpatialDimension.set_reference_system m
          Value.none) DIM_REF_SYS_PROP = false
      ∧ dictLookup (VerticalSpatialDimension.set_reference_system m v)
          DIM_REF_SYS_PROP = some v)
    ∧ (dictContains (TemporalDimension.set_extent m Value.none)
        DIM_EXTENT_PROP = false
      ∧ dictLookup (TemporalDimension.set_extent m v)
          DIM_EXTENT_PROP = some v
      ∧ dictContains (TemporalDimension.set_values m Value.none)
          DIM_VALUES_PROP = false
      ∧ dictLookup (TemporalDimension.set_values m v)
          DIM_VALUES_PROP = some v)
    ∧ (dictContains (AdditionalDimension.set_extent m Value.none)
        DIM_EXTENT_PROP = false
      ∧ dictLookup (AdditionalDimension.set_extent m v)
          DIM_EXTENT_PROP = some v
      ∧ dictContains (AdditionalDimension.set_values m Value.none)
          DIM_VALUES_PROP = false
      ∧ dictLookup (AdditionalDimension.set_values m v)
          DIM_VALUES_PROP = some v
      ∧ dictContains (AdditionalDimension.set_unit m Value.none)
          DIM_UNIT_PROP = false
      ∧ dictLookup (AdditionalDimension.set_unit m v)
          DIM_UNIT_PROP = some v
      ∧ dictContains (AdditionalDimension.set_reference_system m
          Value.none) DIM_REF_SYS_PROP = false
      ∧ dictLookup (AdditionalDimension.set_reference_system m v)
          DIM_REF_SYS_PROP = some v)
    ∧ (dictContains (HorizontalSpatialDimension.set_step m Value.none)
        DIM_STEP_PROP = true
      ∧ dictContains (VerticalSpatialDimension.set_step m Value.none)
          DIM_STEP_PROP = true
      ∧ dictContains (TemporalDimension.set_step m Value.none)
          DIM_STEP_PROP = true
      ∧ dictContains (AdditionalDimension.set_step m Value.none)
          DIM_STEP_PROP = true) := by
  simp [Dimension.set_description,
    HorizontalSpatialDimension.set_values,
    HorizontalSpatialDimension.set_reference_system,
    HorizontalSpatialDimension.set_step,
    VerticalSpatialDimension.set_extent, VerticalSpatialDimension.set_values,
    VerticalSpatialDimension.set_unit,
    VerticalSpatialDimension.set_reference_system,
    VerticalSpatialDimension.set_step,
    TemporalDimension.set_extent, TemporalDimension.set_values,
    TemporalDimension.set_step,
    AdditionalDimension.set_extent, AdditionalDimension.set_values,
    AdditionalDimension.set_unit, AdditionalDimension.set_reference_system,
    AdditionalDimension.set_step,
    hv, show (Value.none).isNone = true from rfl,
    dictContains_dictPop_self, dictLookup_dictSet_self,
    dictContains_dictSet_self]

/-- C4 witness: deleting `description` by assigning the absent value, at
the singleton mapping. -/
theorem dimension_optional_setters_witness :
    dictContains
      (Dimension.set_description [(DIM_DESC_PROP, Value.str "d")] Value.none)
      DIM_DESC_PROP = false :=
  (dimension_optional_setters [(DIM_DESC_PROP, Value.str "d")]
    (Value.str "x") rfl).1.1

/-- C5: Constructing a view via `Dimension.from_dict` (when it succeeds) or
`Variable.from_dict`, writing no fields, and serializing back via `to_dict`
yields exactly the input mapping. -/
theorem from_dict_to_dict_roundtrip (d : PropMap) :
    (∀ dim : Dimension, Dimension.from_dict d = Except.ok dim →
      Dimension.to_dict dim = d)
    ∧ Variable.to_dict (Variable.from_dict d) = d := by
  constructor
  · intro dim h
    simp only [Dimension.from_dict] at h
    split_ifs at h <;>
      simp only [Except.ok.injEq] at h <;>
      simp [← h, Dimension.to_dict, Dimension.properties]
  · rfl

/-- C5 witness: the round-trip at a concrete temporal dimension mapping. -/
theorem from_dict_to_dict_roundtrip_witness :
    Dimension.to_dict (Dimension.temporal [(DIM_TYPE_PROP, Value.str "temporal")])
      = [(DIM_TYPE_PROP, Value.str "temporal")] :=
  (from_dict_to_dict_roundtrip [(DIM_TYPE_PROP, Value.str "temporal")]).1
    (Dimension.temporal [(DIM_TYPE_PROP, Value.str "temporal")]) rfl

/-- The variable property mapping of the spec's concrete scenario:
`{"type": "data", "dimensions": ["time","y","x"], "unit": "degrees C",
"extent": [0, 100]}`. -/
def tmaxScenario : PropMap :=
  [(VAR_TYPE_PROP, Value.str "data"),
   (VAR_DIMS_PROP, Value.list [Value.str "time", Value.str "y", Value.str "x"]),
   (VAR_UNIT_PROP, Value.str "degrees C"),
   (VAR_EXTENT_PROP, Value.list [Value.num 0, Value.num 100])]

/-- C6: On the spec's concrete variable mapping, `var_type`, `unit` and
`extent` return the stored values, but the `dimensions` accessor does not
return `["time","y","x"]`: its body calls `dict.get` with three arguments,
which raises `TypeError` on every input — contradicting both the claim and
the repository's own tests (`test_variable` expects
`tmax.dimensions == ["time","y","x","pressure_levels"]`). -/
theorem variable_concrete_scenario :
    Variable.var_type tmaxScenario = Except.ok (Value.str "data")
    ∧ Variable.unit tmaxScenario = Value.str "degrees C"
    ∧ Variable.extent tmaxScenario = Value.list [Value.num 0, Value.num 100]
    ∧ Variable.dimensions tmaxScenario =
        Except.error (PyError.typeError "get expected at most 2 arguments, got 3") :=
  ⟨rfl, rfl, rfl, rfl⟩

/-- C7 counterexample: assigning the absent value to a Variable's `step`
through its setter does not delete the key — the key stays present,
holding null. -/
theorem variable_step_setter_counterexample :
    dictContains (Variable.set_step [] Value.none) VAR_STEP_PROP = true
    ∧ dictLookup (Variable.set_step [] Value.none) VAR_STEP_PROP
        = some Value.none :=
  ⟨rfl, rfl⟩

/-- C7 (amended): On every Variable view, assigning the absent value
through the setters of `description`, `extent`, `unit`, `shape`, `chunks`
and `attrs` deletes that key from the underlying mapping, and assigning a
concrete value stores it under that key; the `step` setter instead stores
whatever it is assigned — the explicit null included, leaving the key
present — and never deletes the key. -/
theorem variable_optional_setters (m : PropMap) (v : Value)
    (hv : v.isNone = false) :
    (dictContains (Variable.set_description m Value.none)
        VAR_DESC_PROP = false
      ∧ dictLookup (Variable.set_description m v) VAR_DESC_PROP = some v)
    ∧ (dictContains (Variable.set_extent m Value.none)
        VAR_EXTENT_PROP = false
      ∧ dictLookup (Variable.set_extent m v) VAR_EXTENT_PROP = some v)
    ∧ (dictContains (Variable.set_unit m Value.none) VAR_UNIT_PROP = false
      ∧ dictLookup (Variable.set_unit m v) VAR_UNIT_PROP = some v)
    ∧ (dictContains (Variable.set_shape m Value.none) VAR_SHAPE_PROP = false
      ∧ dictLookup (Variable.set_shape m v) VAR_SHAPE_PROP = some v)
    ∧ (dictContains (Variable.set_chunks m Value.none)
        VAR_CHUNKS_PROP = false
      ∧ dictLookup (Variable.set_chunks m v) VAR_CHUNKS_PROP = some v)
    ∧ (dictContains (Variable.set_attrs m Value.none) VAR_ATTRS_PROP = false
      ∧ dictLookup (Variable.set_attrs m v) VAR_ATTRS_PROP = some v)
    ∧ (dictLookup (Variable.set_step m Value.none) VAR_STEP_PROP
        = some Value.none
      ∧ dictLookup (Variable.set_step m v) VAR_STEP_PROP = some v) := by
  simp [Variable.set_description, Variable.set_extent, Variable.set_unit,
    Variable.set_shape, Variable.set_chunks, Variable.set_attrs,
    Variable.set_step, hv, show (Value.none).isNone = true from rfl,
    dictContains_dictPop_self, dictLookup_dictSet_self]

/-- C7 witness: deleting a Variable's `unit` by assigning the absent value,
at a singleton mapping. -/
theorem variable_optional_setters_witness :
    dictContains
      (Variable.set_unit [(VAR_UNIT_PROP, Value.str "m")] Value.none)
      VAR_UNIT_PROP = false :=
  (variable_optional_setters [(VAR_UNIT_PROP, Value.str "m")]
    (Value.str "K") rfl).2.2.1.1

/-- C8: `DatacubeExtension.ext` dispatches on the host object's runtime
kind — a collection-level facade over the collection's `extra_fields` for
Collection-kind, an item-level facade over the item's properties for
Item-kind, an asset-level facade for Asset-kind — and raises
`ExtensionTypeError` for a host object of any other kind. -/
theorem datacube_ext_dispatch :
    (∀ ef : PropMap, DatacubeExtension.ext (STACObject.collection ef) =
        Except.ok (DatacubeExtensionView.collectionExt ef))
    ∧ (∀ p : PropMap, DatacubeExtension.ext (STACObject.item p) =
        Except.ok (DatacubeExtensionView.itemExt p))
    ∧ (∀ (href : String) (p : PropMap) (o : Option Owner),
        ∃ add, DatacubeExtension.ext (STACObject.asset href p o) =
          Except.ok (DatacubeExtensionView.assetExt href p add))
    ∧ (∀ kind : String, DatacubeExtension.ext (STACObject.other kind) =
        Except.error (PyError.extensionTypeError
          ("Datacube extension does not apply to type " ++ kind))) :=
  ⟨fun _ => rfl, fun _ => rfl,
   fun _ _ _ => ⟨_, rfl⟩,
   fun _ => rfl⟩

/-- Helper `firstRead` over a single fallback mapping is exactly that mapping's
`dict.get`. -/
theorem firstRead_singleton (p : PropMap) (k : String) :
    firstRead [p] k = dictGet p k := by
  by_cases hw : (dictGet p k).isNone = true
  · simp [firstRead, hw, (Value.isNone_iff _).mp hw]
  · have hw' : (dictGet p k).isNone = false := by
      revert hw
      cases (dictGet p k).isNone <;> simp
    simp [firstRead, hw']

/-- C9: The asset facade wraps the asset's own property mapping and chains
a read-only fallback into the owning item's properties exactly when the
asset's owner is a known Item; an ownerless asset (or one owned by a
collection) gets no fallback, and its construction succeeds with no
owner-dependent failure.  Reads on an owned asset's facade fall through to
the owning item's properties when the asset's own mapping gives no value;
without an owner they read the asset's mapping alone. -/
theorem asset_extension_owner_fallback :
    (∀ (href : String) (p ip : PropMap),
        DatacubeExtension.ext (STACObject.asset href p (some (Owner.item ip)))
          = Except.ok (DatacubeExtensionView.assetExt href p (some [ip])))
    ∧ (∀ (href : String) (p : PropMap),
        DatacubeExtension.ext (STACObject.asset href p Option.none)
          = Except.ok (DatacubeExtensionView.assetExt href p Option.none))
    ∧ (∀ (href : String) (p cf : PropMap),
        DatacubeExtension.ext
            (STACObject.asset href p (some (Owner.collection cf)))
          = Except.ok (DatacubeExtensionView.assetExt href p Option.none))
    ∧ (∀ (href k : String) (p ip : PropMap),
        dictContains p k = false →
        DatacubeExtensionView.get_property
            (DatacubeExtensionView.assetExt href p (some [ip])) k
          = dictGet ip k)
    ∧ (∀ (href k : String) (p : PropMap),
        DatacubeExtensionView.get_property
            (DatacubeExtensionView.assetExt href p Option.none) k
          = dictGet p k) := by
  refine ⟨fun _ _ _ => rfl, fun _ _ => rfl, fun _ _ _ => rfl, ?_, ?_⟩
  · intro href k p ip hp
    have hnone := dictGet_of_not_contains p k hp
    simp [DatacubeExtensionView.get_property, hnone,
      show (Value.none).isNone = true from rfl, firstRead_singleton]
  · intro href k p
    by_cases hw : (dictGet p k).isNone = true
    · simp [DatacubeExtensionView.get_property, hw, (Value.isNone_iff _).mp hw]
    · have hw' : (dictGet p k).isNone = false := by
        revert hw
        cases (dictGet p k).isNone <;> simp
      simp [DatacubeExtensionView.get_property, hw']

/-- C9 witness: the fallback read at a concrete owned asset whose own
mapping lacks the key. -/
theorem asset_extension_owner_fallback_witness :
    DatacubeExtensionView.get_property
        (DatacubeExtensionView.assetExt "a.tif" []
          (some [[(DIMENSIONS_PROP, Value.str "inherited")]]))
        DIMENSIONS_PROP
      = dictGet [(DIMENSIONS_PROP, Value.str "inherited")] DIMENSIONS_PROP :=
  asset_extension_owner_fallback.2.2.2.1 "a.tif" DIMENSIONS_PROP []
    [(DIMENSIONS_PROP, Value.str "inherited")] rfl

/-- C10: On both spatial dimension variants, assigning a string through the
`axis` setter stores it under the `type` key and leaves the `axis` key
untouched, so reading `axis` afterwards still returns the previously
stored axis value while reading `dim_type` returns the newly assigned
one. -/
theorem spatial_axis_setter_frame (m : PropMap) (s : String) :
    (dictLookup (HorizontalSpatialDimension.set_axis m (Value.str s))
        DIM_TYPE_PROP = some (Value.str s)
      ∧ dictLookup (HorizontalSpatialDimension.set_axis m (Value.str s))
          DIM_AXIS_PROP = dictLookup m DIM_AXIS_PROP
      ∧ HorizontalSpatialDimension.axis
          (HorizontalSpatialDimension.set_axis m (Value.str s))
        = HorizontalSpatialDimension.axis m
      ∧ Dimension.dim_type (HorizontalSpatialDimension.set_axis m (Value.str s))
        = Except.ok (Value.str s))
    ∧ (dictLookup (VerticalSpatialDimension.set_axis m (Value.str s))
        DIM_TYPE_PROP = some (Value.str s)
      ∧ dictLookup (VerticalSpatialDimension.set_axis m (Value.str s))
          DIM_AXIS_PROP = dictLookup m DIM_AXIS_PROP
      ∧ VerticalSpatialDimension.axis
          (VerticalSpatialDimension.set_axis m (Value.str s))
        = VerticalSpatialDimension.axis m
      ∧ Dimension.dim_type (VerticalSpatialDimension.set_axis m (Value.str s))
        = Except.ok (Value.str s)) := by
  have haxis : DIM_AXIS_PROP ≠ DIM_TYPE_PROP := by decide
  refine ⟨⟨?_, ?_, ?_, ?_⟩, ⟨?_, ?_, ?_, ?_⟩⟩
  · simp [HorizontalSpatialDimension.set_axis, dictLookup_dictSet_self]
  · simp [HorizontalSpatialDimension.set_axis,
      dictLookup_dictSet_other m DIM_TYPE_PROP DIM_AXIS_PROP _ haxis]
  · simp [HorizontalSpatialDimension.axis, HorizontalSpatialDimension.set_axis,
      dictGet, dictLookup_dictSet_other m DIM_TYPE_PROP DIM_AXIS_PROP _ haxis]
  · simp [Dimension.dim_type, HorizontalSpatialDimension.set_axis,
      dictGet_dictSet_self, get_required,
      show (Value.str s).isNone = false from rfl]
  · simp [VerticalSpatialDimension.set_axis, dictLookup_dictSet_self]
  · simp [VerticalSpatialDimension.set_axis,
      dictLookup_dictSet_other m DIM_TYPE_PROP DIM_AXIS_PROP _ haxis]
  · simp [VerticalSpatialDimension.axis, VerticalSpatialDimension.set_axis,
      dictGet, dictLookup_dictSet_other m DIM_TYPE_PROP DIM_AXIS_PROP _ haxis]
  · simp [Dimension.dim_type, VerticalSpatialDimension.set_axis,
      dictGet_dictSet_self, get_required,
      show (Value.str s).isNone = false from rfl]

end Datacube
